import Mathlib

/-!
Shallow embedding of the core of the rips user-space network stack
(`src/stack.rs` and `src/ethernet/ethernet_tx.rs`), together with proofs
about the behaviour of its operations.

Maps (`HashMap`, `HashSet`) are modelled as association lists kept in
insertion order; the raw datalink sender is modelled by the log of
requests made to it; the worker thread's message handlers are modelled as
state-transition functions on the interface state they mutate.
-/

namespace Rips

/-- Size of the `u64` version-counter space: versions live in `[0, 2^64)`. -/
def u64size : Nat := 2 ^ 64

/-- An Ethernet MAC address (six octets), `pnet::util::MacAddr`. -/
structure MacAddr where
  a : Nat
  b : Nat
  c : Nat
  d : Nat
  e : Nat
  f : Nat
deriving DecidableEq, Repr

/-- The Ethernet broadcast address ff:ff:ff:ff:ff:ff. -/
def broadcastMac : MacAddr := ⟨0xff, 0xff, 0xff, 0xff, 0xff, 0xff⟩

/-- An IPv4 address as its 32-bit numeric value; 0 is 0.0.0.0. -/
abbrev Ipv4Addr := Nat

/-- An IPv4 network `ip/prefixLen` (the `ipnetwork::Ipv4Network` type). -/
structure Ipv4Network where
  ip : Ipv4Addr
  prefixLen : Nat
deriving DecidableEq, Repr

/-- The network mask of `n`: the top `prefixLen` bits of a 32-bit word. -/
def Ipv4Network.mask (n : Ipv4Network) : Nat := 2 ^ 32 - 2 ^ (32 - n.prefixLen)

/-- `Ipv4Network::contains(ip)`: `ip` and the network address agree under the mask. -/
def Ipv4Network.contains (n : Ipv4Network) (dst : Ipv4Addr) : Bool :=
  Nat.land dst n.mask == Nat.land n.ip n.mask

/-- A host NIC handle (`Interface`): name and MAC. -/
structure Interface where
  name : String
  mac : MacAddr
deriving DecidableEq, Repr

/-- Transmit-layer errors (`TxError`); the payload of `Other`/`IoError` is elided. -/
inductive TxError where
  | InvalidTx
  | Other
deriving DecidableEq, Repr

/-- `TxResult = Result<(), TxError>`. -/
abbrev TxResult := Except TxError Unit

/-- Stack-level errors (`StackError`). -/
inductive StackError where
  | IllegalArgument
  | InvalidInterface
  | NoRouteToHost
  | TxFail (e : TxError)
deriving DecidableEq, Repr

/-- One request made to the raw datalink sender:
`build_and_send(num_packets, packet_size, _)`. -/
structure SendReq where
  num_packets : Nat
  packet_size : Nat
deriving DecidableEq, Repr

/-- Total bytes the datalink writes for one request: the filler writes exactly
`packet_size` bytes for each of the `num_packets` frames (datalink contract). -/
def SendReq.totalBytes (r : SendReq) : Nat := r.num_packets * r.packet_size

/-- `TxBarrier`: the version-guarded send gate. The raw `EthernetDataLinkSender`
boxed inside it is modelled by the log of requests made to it. -/
structure TxBarrier where
  version : Nat
  sent : List SendReq
deriving DecidableEq, Repr

/-- `TxBarrier::new(tx)`: the version starts at 0. -/
def TxBarrier.new : TxBarrier := ⟨0, []⟩

/-- `TxBarrier::inc()`: `self.version = self.version.wrapping_add(1)`. -/
def TxBarrier.inc (b : TxBarrier) : TxBarrier :=
  { b with version := (b.version + 1) % u64size }

/-- `impl Tx for TxBarrier`: forwards the request to the datalink sender's
`build_and_send`; modelled as appending the request to the log. -/
def TxBarrier.send (b : TxBarrier) (num_packets packet_size : Nat) : TxBarrier × TxResult :=
  ({ b with sent := b.sent ++ [⟨num_packets, packet_size⟩] }, .ok ())

/-- `TxImpl`: a sender handle holding a version snapshot taken at creation. -/
structure TxImpl where
  version : Nat
deriving DecidableEq, Repr

/-- `StackInterfaceData::tx()`: a `TxImpl` snapshotting the barrier's current version. -/
def TxImpl.fromBarrier (b : TxBarrier) : TxImpl := ⟨b.version⟩

/-- `impl Tx for TxImpl`: lock the barrier and compare versions; a mismatch
fails with `InvalidTx` without touching the datalink sender, otherwise the
send is delegated to `TxBarrier::send`. -/
def TxImpl.send (t : TxImpl) (b : TxBarrier) (num_packets packet_size : Nat) :
    TxBarrier × TxResult :=
  if t.version ≠ b.version then (b, .error .InvalidTx)
  else b.send num_packets packet_size

/-- `EthernetPacket::minimum_packet_size()`: the 14-byte Ethernet II header. -/
def ethernetMinimumPacketSize : Nat := 14

/-- `BasicEthernetPayload`: ether type, stream offset and the payload bytes. -/
structure BasicEthernetPayload where
  ether_type : Nat
  offset : Nat
  payload : List Nat
deriving DecidableEq, Repr

/-- `BasicEthernetPayload::new`: offset starts at 0. -/
def BasicEthernetPayload.new (et : Nat) (payload : List Nat) : BasicEthernetPayload :=
  ⟨et, 0, payload⟩

/-- `Payload::len()` for `BasicEthernetPayload`. -/
def BasicEthernetPayload.len (p : BasicEthernetPayload) : Nat := p.payload.length

/-- `BasicEthernetPayload::build(buffer)`: with `start = self.offset` and
`stop = min(start + buffer.len(), self.payload.len())`, copy
`self.payload[start..stop]` into `buffer[0..stop-start]`, set
`self.offset = stop`. Returns the updated payload state and the buffer. -/
def BasicEthernetPayload.build (p : BasicEthernetPayload) (buffer : List Nat) :
    BasicEthernetPayload × List Nat :=
  let start := p.offset
  let stop := min (start + buffer.length) p.payload.length
  ({ p with offset := stop },
    (p.payload.drop start).take (stop - start) ++ buffer.drop (stop - start))

/-- `EthernetTxImpl`: source and destination MAC over an underlying `Tx`. -/
structure EthernetTxImpl where
  src : MacAddr
  dst : MacAddr
deriving DecidableEq, Repr

/-- `EthernetBuilder`: the payload handed down to the underlying `Tx` by
`EthernetTxImpl::send`. -/
structure EthernetBuilder where
  src : MacAddr
  dst : MacAddr
  payload : BasicEthernetPayload
deriving DecidableEq, Repr

/-- `EthernetTxImpl::send(packets, size, payload)`: wraps the payload in an
`EthernetBuilder` and asks the underlying `Tx` for `packets` frames of
`size + EthernetPacket::minimum_packet_size()` bytes each. Modelled as
returning the request and the builder passed down. -/
def EthernetTxImpl.send (eth : EthernetTxImpl) (packets size : Nat)
    (payload : BasicEthernetPayload) : SendReq × EthernetBuilder :=
  (⟨packets, size + ethernetMinimumPacketSize⟩, ⟨eth.src, eth.dst, payload⟩)

/-- Modelled from the spec: `ArpTable` (arp.rs is not under src/) is an
internally synchronized IP→MAC cache; the map is modelled as an association
list, waiter queues are elided. -/
structure ArpTable where
  entries : List (Ipv4Addr × MacAddr)
deriving DecidableEq, Repr

/-- The MAC currently bound to `ip`, if any. -/
def ArpTable.lookup (t : ArpTable) (ip : Ipv4Addr) : Option MacAddr :=
  (t.entries.find? (fun p => p.1 == ip)).map (·.2)

/-- Modelled from the spec: `ArpTable::insert(ip, mac)` (arp.rs is not under
src/) updates the binding and returns whether this changed the binding — a
new entry or a different MAC. -/
def ArpTable.insert (t : ArpTable) (ip : Ipv4Addr) (mac : MacAddr) : ArpTable × Bool :=
  match t.lookup ip with
  | some m =>
    if m = mac then (t, false)
    else (⟨t.entries.map (fun p => if p.1 == ip then (ip, mac) else p)⟩, true)
  | none => (⟨t.entries ++ [(ip, mac)]⟩, true)

/-- Per-local-IP bundle (`Ipv4Data`): the network and the UDP port→listener
map; listeners are identified by a numeric id, the ICMP listener map is
elided (no claim concerns it). -/
structure Ipv4Data where
  net : Ipv4Network
  udp_listeners : List (Nat × Nat)
deriving DecidableEq, Repr

/-- A `StackInterface` flattened together with its shared
`StackInterfaceData` (interface MAC, barrier, local-IP set); the HashMap and
HashSet are association lists / lists in insertion order. -/
structure StackInterface where
  mac : MacAddr
  tx : TxBarrier
  ipv4_addresses : List Ipv4Addr
  mtu : Nat
  arp_table : ArpTable
  ipv4_datas : List (Ipv4Addr × Ipv4Data)
deriving DecidableEq, Repr

/-- `StackInterface::new`: fresh barrier, empty tables, `DEFAULT_MTU` = 1500. -/
def StackInterface.new (mac : MacAddr) : StackInterface :=
  ⟨mac, TxBarrier.new, [], 1500, ⟨[]⟩, []⟩

/-- `StackInterfaceThread::update_arp(ip, mac)`: insert into the ARP table;
if the insert changed the binding, `inc()` the barrier. -/
def StackInterface.update_arp (s : StackInterface) (ip : Ipv4Addr) (mac : MacAddr) :
    StackInterface :=
  let r := s.arp_table.insert ip mac
  if r.2 then { s with arp_table := r.1, tx := s.tx.inc }
  else { s with arp_table := r.1 }

/-- The fields of an ARP reply packet. -/
structure ArpReplyPacket where
  sender_mac : MacAddr
  sender_ip : Ipv4Addr
  target_mac : MacAddr
  target_ip : Ipv4Addr
deriving DecidableEq, Repr

/-- An Ethernet frame carrying an ARP reply. -/
structure ArpFrame where
  frame_src : MacAddr
  frame_dst : MacAddr
  arp : ArpReplyPacket
deriving DecidableEq, Repr

/-- `StackInterfaceData::arp_reply_tx()`: an `ArpReplyTx` over an
`EthernetTxImpl` whose destination is `dst_mac` = ff:ff:ff:ff:ff:ff. -/
def arp_reply_tx (own_mac : MacAddr) : EthernetTxImpl := ⟨own_mac, broadcastMac⟩

/-- Modelled from the spec: `ArpReplyTx::send(sender_ip, target_mac,
target_ip)` (arp.rs is not under src/) builds an ARP reply whose sender is
the local (MAC, IP) and whose target is the requester's (MAC, IP); the
carrying frame's source and destination MACs come from the underlying
`EthernetTxImpl`, as in `EthernetTxImpl::send`. -/
def ArpReplyTx.send (eth : EthernetTxImpl) (sender_ip : Ipv4Addr) (target_mac : MacAddr)
    (target_ip : Ipv4Addr) : ArpFrame :=
  ⟨eth.src, eth.dst, ⟨eth.src, sender_ip, target_mac, target_ip⟩⟩

/-- `StackInterfaceThread::handle_arp_request(sender_ip, sender_mac,
target_ip)`: when `target_ip` is one of the local IPs, send an ARP reply
through `arp_reply_tx()` with arguments `(target_ip, sender_mac, sender_ip)`.
Returns the frame sent, if any. -/
def StackInterface.handle_arp_request (s : StackInterface) (sender_ip : Ipv4Addr)
    (sender_mac : MacAddr) (target_ip : Ipv4Addr) : Option ArpFrame :=
  if target_ip ∈ s.ipv4_addresses then
    some (ArpReplyTx.send (arp_reply_tx s.mac) target_ip sender_mac sender_ip)
  else none

/-- `StackInterface::add_ipv4(ip_net)`: an occupied map entry for
`ip_net.ip()` fails with `IllegalArgument`; otherwise insert a fresh
`Ipv4Data` under the IP and add the IP to the address set (the per-protocol
rx listener wiring is elided). -/
def StackInterface.add_ipv4 (s : StackInterface) (ip_net : Ipv4Network) :
    Except StackError StackInterface :=
  let ip := ip_net.ip
  if (s.ipv4_datas.find? (fun p => p.1 == ip)).isSome then .error .IllegalArgument
  else .ok { s with
    ipv4_datas := s.ipv4_datas ++ [(ip, ⟨ip_net, []⟩)],
    ipv4_addresses :=
      if ip ∈ s.ipv4_addresses then s.ipv4_addresses else s.ipv4_addresses ++ [ip] }

/-- `StackInterface::set_mtu(mtu)`: update the MTU and `inc()` the barrier. -/
def StackInterface.set_mtu (s : StackInterface) (mtu : Nat) : StackInterface :=
  { s with mtu := mtu, tx := s.tx.inc }

/-- `impl Drop for StackInterface`: `inc()` the barrier. -/
def StackInterface.dropSelf (s : StackInterface) : StackInterface :=
  { s with tx := s.tx.inc }

/-- An `Ipv4TxImpl`: bound source and destination IP, resolved next-hop MAC
and the MTU captured at creation. -/
structure Ipv4TxRec where
  src : Ipv4Addr
  dst : Ipv4Addr
  dst_mac : MacAddr
  mtu : Nat
deriving DecidableEq, Repr

/-- `StackInterface::closest_local_ip(dst)`: the first local IP (map
iteration order, modelled as list order) whose network contains `dst`;
`None` when no local network contains it. -/
def StackInterface.closest_local_ip (s : StackInterface) (dst : Ipv4Addr) : Option Ipv4Addr :=
  (s.ipv4_datas.find? (fun p => p.2.net.contains dst)).map (·.1)

/-- `StackInterface::ipv4_tx(dst, gw)`: the next hop is `gw` when present,
else `dst`; the source is chosen by `closest_local_ip` (no candidate →
`IllegalArgument`); the next-hop MAC comes from the ARP table when cached,
otherwise from the blocking ARP request/wait cycle, modelled by the oracle
`resolved`. -/
def StackInterface.ipv4_tx (s : StackInterface) (resolved : Ipv4Addr → MacAddr)
    (dst : Ipv4Addr) (gw : Option Ipv4Addr) : Except StackError Ipv4TxRec :=
  let local_dst := gw.getD dst
  match s.closest_local_ip local_dst with
  | some src =>
    let dst_mac :=
      match s.arp_table.lookup local_dst with
      | some mac => mac
      | none => resolved local_dst
    .ok ⟨src, dst, dst_mac, s.mtu⟩
  | none => .error .IllegalArgument

/-- One routing-table entry: network, optional gateway, interface. -/
structure Route where
  net : Ipv4Network
  gw : Option Ipv4Addr
  iface : Interface
deriving DecidableEq, Repr

/-- Modelled from the spec: `RoutingTable::route(dst)` (the routing table is
not under src/; the spec treats it as a black-box longest-prefix lookup)
returns the gateway and interface of the most specific route containing
`dst`. -/
def routeLookup (rt : List Route) (dst : Ipv4Addr) : Option (Option Ipv4Addr × Interface) :=
  let best := (rt.filter (fun r => r.net.contains dst)).foldl
    (fun acc r =>
      match acc with
      | none => some r
      | some b => if r.net.prefixLen > b.net.prefixLen then some r else some b)
    none
  best.map (fun r => (r.gw, r.iface))

/-- `NetworkStack`: the interface map (association list) and routing table. -/
structure NetworkStack where
  interfaces : List (Interface × StackInterface)
  routing_table : List Route
deriving DecidableEq, Repr

/-- `NetworkStack::interface(interface)`: lookup, `InvalidInterface` when absent. -/
def NetworkStack.interfaceGet (ns : NetworkStack) (iface : Interface) :
    Except StackError StackInterface :=
  match ns.interfaces.find? (fun p => p.1 == iface) with
  | some p => .ok p.2
  | none => .error .InvalidInterface

/-- Write back the `StackInterface` stored under `iface` (the functional
counterpart of mutating through `interface(...)?`). -/
def NetworkStack.setInterface (ns : NetworkStack) (iface : Interface) (si : StackInterface) :
    NetworkStack :=
  { ns with interfaces := ns.interfaces.map (fun p => if p.1 == iface then (iface, si) else p) }

/-- `NetworkStack::add_ipv4(interface, ip_net)`: delegate to the interface's
`add_ipv4` (errors propagate via `?`), then
`routing_table.add_route(ip_net, None, interface)` (modelled as appending
the route). -/
def NetworkStack.add_ipv4 (ns : NetworkStack) (iface : Interface) (ip_net : Ipv4Network) :
    Except StackError NetworkStack :=
  match ns.interfaceGet iface with
  | .error e => .error e
  | .ok si =>
    match si.add_ipv4 ip_net with
    | .error e => .error e
    | .ok si' =>
      .ok { ns.setInterface iface si' with
            routing_table := ns.routing_table ++ [⟨ip_net, none, iface⟩] }

/-- `NetworkStack::ipv4_tx(dst)`: consult the routing table; no route →
`NoRouteToHost`; a route whose interface is not in the interface map →
`IllegalArgument`; otherwise delegate to that interface's `ipv4_tx(dst, gw)`. -/
def NetworkStack.ipv4_tx (ns : NetworkStack) (resolved : Ipv4Addr → MacAddr)
    (dst : Ipv4Addr) : Except StackError Ipv4TxRec :=
  match routeLookup ns.routing_table dst with
  | some (gw, iface) =>
    match ns.interfaces.find? (fun p => p.1 == iface) with
    | some p => p.2.ipv4_tx resolved dst gw
    | none => .error .IllegalArgument
  | none => .error .NoRouteToHost

/-- io::ErrorKind values `udp_listen_ipv4` can produce. -/
inductive IoErrorKind where
  | AddrNotAvailable
  | AddrInUse
  | InvalidInput
deriving DecidableEq, Repr

/-- `NetworkStack::get_random_port`: repeatedly sample from
`[32768, 61000)` until the sampled port is not occupied. `draws` is the
stream of samples produced by the RNG; `none` models the loop not finding a
free port within the stream. -/
def get_random_port (listeners : List (Nat × Nat)) (draws : List Nat) : Option Nat :=
  draws.find? (fun n => (listeners.find? (fun p => p.1 == n)).isNone)

/-- The first interface (in map order) owning local IP `ip`, with its key and
the `Ipv4Data` stored under `ip`. -/
def NetworkStack.findOwning (ns : NetworkStack) (ip : Ipv4Addr) :
    Option (Interface × Ipv4Data) :=
  ns.interfaces.findSome?
    (fun p => (p.2.ipv4_datas.find? (fun q => q.1 == ip)).map (fun q => (p.1, q.2)))

/-- Insert `(port, listener)` into the UDP listener map of local IP `ip` on
interface `iface` (the functional counterpart of `udp_listeners.insert`). -/
def NetworkStack.insertUdpListener (ns : NetworkStack) (iface : Interface) (ip : Ipv4Addr)
    (port listener : Nat) : NetworkStack :=
  { ns with interfaces := ns.interfaces.map (fun p =>
      if p.1 == iface then
        (p.1, { p.2 with ipv4_datas := p.2.ipv4_datas.map (fun q =>
          if q.1 == ip then
            (q.1, { q.2 with udp_listeners := q.2.udp_listeners ++ [(port, listener)] })
          else q) })
      else p) }

/-- `NetworkStack::udp_listen_ipv4(addr, listener)`: reject 0.0.0.0 with
`AddrNotAvailable`; walk the interfaces and use the first one owning the IP
(none → `InvalidInput`); a zero port is replaced by `get_random_port`; an
occupied port fails with `AddrInUse`; otherwise register the listener and
return the bound socket address. The outer `none` models the unbounded
random-port loop not terminating within `draws`. -/
def NetworkStack.udp_listen_ipv4 (ns : NetworkStack) (draws : List Nat) (ip : Ipv4Addr)
    (port listener : Nat) : Option (NetworkStack × Except IoErrorKind (Ipv4Addr × Nat)) :=
  if ip = 0 then some (ns, .error .AddrNotAvailable)
  else
    match ns.findOwning ip with
    | some (iface, data) =>
      match if port = 0 then get_random_port data.udp_listeners draws else some port with
      | none => none
      | some local_port =>
        if (data.udp_listeners.find? (fun p => p.1 == local_port)).isNone then
          some (ns.insertUdpListener iface ip local_port listener, .ok (ip, local_port))
        else some (ns, .error .AddrInUse)
    | none => some (ns, .error .InvalidInput)

/-- One `add_ipv4` call as a state transition: a failing call leaves the
interface unchanged. -/
def StackInterface.addStep (s : StackInterface) (n : Ipv4Network) : StackInterface :=
  match s.add_ipv4 n with
  | .ok s' => s'
  | .error _ => s

/-- The result of applying a sequence of `add_ipv4` calls to an interface. -/
def StackInterface.applyAdds (s : StackInterface) (nets : List Ipv4Network) : StackInterface :=
  nets.foldl StackInterface.addStep s

/-- A concrete interface handle used to exercise the listen path. -/
def sampleIface : Interface := { name := "eth0", mac := ⟨1, 2, 3, 4, 5, 6⟩ }

/-- A concrete stack: one interface owning IP 5, no UDP listeners bound. -/
def sampleStackFree : NetworkStack :=
  ⟨[(sampleIface, ⟨⟨1, 2, 3, 4, 5, 6⟩, ⟨0, []⟩, [5], 1500, ⟨[]⟩, [(5, ⟨⟨5, 32⟩, []⟩)]⟩)], []⟩

/-- The same stack with port 7 already bound on IP 5. -/
def sampleStackBusy : NetworkStack :=
  ⟨[(sampleIface,
      ⟨⟨1, 2, 3, 4, 5, 6⟩, ⟨0, []⟩, [5], 1500, ⟨[]⟩, [(5, ⟨⟨5, 32⟩, [(7, 1)]⟩)]⟩)], []⟩

/-! ### Helper lemmas -/

/-- `addStep` never touches the transmit barrier. -/
theorem StackInterface.addStep_tx (s : StackInterface) (n : Ipv4Network) :
    (s.addStep n).tx = s.tx := by
  unfold StackInterface.addStep StackInterface.add_ipv4
  cases hfind : s.ipv4_datas.find? (fun p => p.1 == n.ip) <;> simp [hfind]

/-- `applyAdds` never touches the transmit barrier. -/
theorem StackInterface.applyAdds_tx (s : StackInterface) (nets : List Ipv4Network) :
    (s.applyAdds nets).tx = s.tx := by
  induction nets generalizing s with
  | nil => rfl
  | cons n ns ih =>
    show ((s.addStep n).applyAdds ns).tx = s.tx
    rw [ih, StackInterface.addStep_tx]

/-- A key whose association-list lookup fails is not among the keys. -/
theorem find_key_none {β : Type} {l : List (Nat × β)} {ip : Nat}
    (h : l.find? (fun p => p.1 == ip) = none) : ip ∉ l.map Prod.fst := by
  intro hmem
  rw [List.find?_eq_none] at h
  obtain ⟨q, hq, hq1⟩ := List.mem_map.mp hmem
  exact h q hq (by simp [hq1])

/-- `addStep` preserves the keys-equal-addresses invariant. -/
theorem StackInterface.addStep_inv (s : StackInterface) (n : Ipv4Network)
    (h1 : s.ipv4_datas.map Prod.fst = s.ipv4_addresses)
    (h2 : s.ipv4_addresses.Nodup) :
    (s.addStep n).ipv4_datas.map Prod.fst = (s.addStep n).ipv4_addresses
      ∧ (s.addStep n).ipv4_addresses.Nodup := by
  unfold StackInterface.addStep StackInterface.add_ipv4
  cases hfind : s.ipv4_datas.find? (fun p => p.1 == n.ip) with
  | some q => simpa [hfind] using ⟨h1, h2⟩
  | none =>
    have hne : n.ip ∉ s.ipv4_addresses := h1 ▸ find_key_none hfind
    simp only [hfind, Option.isSome_none, Bool.false_eq_true, if_false, if_neg hne]
    refine ⟨?_, ?_⟩
    · simpa using congrArg (fun l => l ++ [n.ip]) h1
    · simp [List.nodup_append, h2, List.Disjoint]
      intro a ha hcontra
      exact hne (hcontra ▸ ha)

/-! ### Claim theorems -/

/-- C1: a `TxImpl` whose snapshotted version differs from the barrier's
current version fails `send` with `InvalidTx` and leaves the barrier (and
hence the datalink-request log) untouched; when the versions are equal the
send is delegated to `TxBarrier::send`. -/
theorem txImpl_send_version_guard (t : TxImpl) (b : TxBarrier) (n s : Nat) :
    (t.version ≠ b.version → t.send b n s = (b, .error .InvalidTx))
    ∧ (t.version = b.version → t.send b n s = b.send n s) := by
  constructor
  · intro h
    simp [TxImpl.send, h]
  · intro h
    simp [TxImpl.send, h]

/-- Witness for C1 at concrete inputs: a stale handle (version 0 against a
barrier at version 1) fails with `InvalidTx`; a fresh handle delegates. -/
theorem txImpl_send_version_guard_witness :
    TxImpl.send ⟨0⟩ ⟨1, []⟩ 2 3 = (⟨1, []⟩, .error .InvalidTx)
    ∧ TxImpl.send ⟨1⟩ ⟨1, []⟩ 2 3 = TxBarrier.send ⟨1, []⟩ 2 3 :=
  ⟨(txImpl_send_version_guard ⟨0⟩ ⟨1, []⟩ 2 3).1 (by decide),
   (txImpl_send_version_guard ⟨1⟩ ⟨1, []⟩ 2 3).2 rfl⟩

/-- C2: the barrier version is bumped by one modulo 2^64 exactly on: an
`UpdateArpTable` whose `arp_table.insert` changed the binding, a `set_mtu`
call, and the interface drop; an `UpdateArpTable` whose insert returned
false, and any sequence of `add_ipv4` calls, leave the version unchanged. -/
theorem barrier_version_increment_events (s : StackInterface) (ip : Ipv4Addr)
    (mac : MacAddr) (m : Nat) (nets : List Ipv4Network) :
    ((s.update_arp ip mac).tx.version
        = if (s.arp_table.insert ip mac).2 then (s.tx.version + 1) % u64size
          else s.tx.version)
    ∧ (s.set_mtu m).tx.version = (s.tx.version + 1) % u64size
    ∧ s.dropSelf.tx.version = (s.tx.version + 1) % u64size
    ∧ (s.applyAdds nets).tx.version = s.tx.version := by
  refine ⟨?_, rfl, rfl, by rw [StackInterface.applyAdds_tx]⟩
  unfold StackInterface.update_arp
  by_cases h : (s.arp_table.insert ip mac).2
  · simp [h, TxBarrier.inc]
  · simp [h]

/-- C8: `EthernetTxImpl::send(packets, size, payload)` asks the underlying
`Tx` for exactly `packets` frames of exactly
`size + EthernetPacket::minimum_packet_size()` bytes each — in total
`packets * (size + 14)` bytes — independently of the payload. -/
theorem ethernetTx_send_exact_request (eth : EthernetTxImpl) (packets size : Nat)
    (payload payload2 : BasicEthernetPayload) :
    (eth.send packets size payload).1 = ⟨packets, size + ethernetMinimumPacketSize⟩
    ∧ ((eth.send packets size payload).1).totalBytes
        = packets * (size + ethernetMinimumPacketSize)
    ∧ (eth.send packets size payload).1 = (eth.send packets size payload2).1 :=
  ⟨rfl, rfl, rfl⟩

/-- C9: with `k = min(buffer.len, payload.len − offset)`,
`BasicEthernetPayload::build(buffer)` writes exactly `k` bytes at the start
of the buffer, equal to the next `k` bytes of the payload from the current
offset, leaves the rest of the buffer untouched (and its length unchanged),
advances the offset by `k`, and does not modify the payload itself — so
successive builds emit consecutive chunks. -/
theorem basicEthernetPayload_build_chunk (p : BasicEthernetPayload) (buffer : List Nat)
    (h : p.offset ≤ p.payload.length) :
    (p.build buffer).1.offset
        = p.offset + min buffer.length (p.payload.length - p.offset)
    ∧ ((p.build buffer).2).take (min buffer.length (p.payload.length - p.offset))
        = (p.payload.drop p.offset).take (min buffer.length (p.payload.length - p.offset))
    ∧ ((p.build buffer).2).drop (min buffer.length (p.payload.length - p.offset))
        = buffer.drop (min buffer.length (p.payload.length - p.offset))
    ∧ ((p.build buffer).2).length = buffer.length
    ∧ (p.build buffer).1.payload = p.payload
    ∧ (p.build buffer).1.ether_type = p.ether_type := by
  have hstop : min (p.offset + buffer.length) p.payload.length
      = p.offset + min buffer.length (p.payload.length - p.offset) := by omega
  have hsub : p.offset + min buffer.length (p.payload.length - p.offset) - p.offset
      = min buffer.length (p.payload.length - p.offset) := by omega
  have hA : ((p.payload.drop p.offset).take
      (min buffer.length (p.payload.length - p.offset))).length
        = min buffer.length (p.payload.length - p.offset) := by
    simp only [List.length_take, List.length_drop]
    omega
  simp only [BasicEthernetPayload.build, hstop, hsub]
  refine ⟨by trivial, List.take_left' hA, List.drop_left' hA, ?_, by trivial, by trivial⟩
  simp only [List.length_append, List.length_drop, hA]
  omega

/-- Witness for C9: payload `[5, 6, 7]` at offset 1 streamed into a 2-byte
buffer: `k = min 2 2 = 2`, the bytes `[6, 7]` are written, and the offset
advances to 3. -/
theorem basicEthernetPayload_build_chunk_witness :
    ((BasicEthernetPayload.mk 0 1 [5, 6, 7]).build [9, 9]).1.offset = 1 + min 2 2
    ∧ (((BasicEthernetPayload.mk 0 1 [5, 6, 7]).build [9, 9]).2).take (min 2 2)
        = (([5, 6, 7] : List Nat).drop 1).take (min 2 2)
    ∧ (((BasicEthernetPayload.mk 0 1 [5, 6, 7]).build [9, 9]).2).drop (min 2 2)
        = ([9, 9] : List Nat).drop (min 2 2)
    ∧ (((BasicEthernetPayload.mk 0 1 [5, 6, 7]).build [9, 9]).2).length = 2
    ∧ ((BasicEthernetPayload.mk 0 1 [5, 6, 7]).build [9, 9]).1.payload = [5, 6, 7]
    ∧ ((BasicEthernetPayload.mk 0 1 [5, 6, 7]).build [9, 9]).1.ether_type = 0 :=
  basicEthernetPayload_build_chunk ⟨0, 1, [5, 6, 7]⟩ [9, 9] (by decide)

/-- C3 counterexample: on an interface with MAC 01:02:03:04:05:06 owning IP
5, an ARP request from peer (IP 7, MAC 09:09:09:09:09:09) targeting 5 does
produce a reply, but the carrying Ethernet frame's destination MAC is the
broadcast address, not the requester's MAC as the claim states —
`arp_reply_tx` hard-codes `dst_mac` = ff:ff:ff:ff:ff:ff. -/
theorem arp_reply_frame_dst_is_broadcast :
    (StackInterface.handle_arp_request
        ⟨⟨1, 2, 3, 4, 5, 6⟩, ⟨0, []⟩, [5], 1500, ⟨[]⟩, []⟩ 7 ⟨9, 9, 9, 9, 9, 9⟩ 5).map
        ArpFrame.frame_dst
      = some broadcastMac
    ∧ broadcastMac ≠ (⟨9, 9, 9, 9, 9, 9⟩ : MacAddr) := by
  refine ⟨rfl, ?_⟩
  decide

/-- C3 (amended): when the target IP of an ARP request is one of the
interface's local IPs, the reply's target MAC is the requester's MAC and the
reply's sender MAC is the interface's own MAC, but the carrying Ethernet
frame is addressed to the broadcast MAC ff:ff:ff:ff:ff:ff, not unicast to
the requester. -/
theorem handle_arp_request_reply_fields (s : StackInterface) (sender_ip : Ipv4Addr)
    (sender_mac : MacAddr) (target_ip : Ipv4Addr)
    (h : target_ip ∈ s.ipv4_addresses) :
    s.handle_arp_request sender_ip sender_mac target_ip
      = some ⟨s.mac, broadcastMac, ⟨s.mac, target_ip, sender_mac, sender_ip⟩⟩ := by
  simp [StackInterface.handle_arp_request, h, ArpReplyTx.send, arp_reply_tx]

/-- Witness for C3 (amended) at a concrete interface owning IP 5. -/
theorem handle_arp_request_reply_fields_witness :
    StackInterface.handle_arp_request
        ⟨⟨1, 2, 3, 4, 5, 6⟩, ⟨0, []⟩, [5], 1500, ⟨[]⟩, []⟩ 7 ⟨9, 9, 9, 9, 9, 9⟩ 5
      = some ⟨⟨1, 2, 3, 4, 5, 6⟩, broadcastMac,
          ⟨⟨1, 2, 3, 4, 5, 6⟩, 5, ⟨9, 9, 9, 9, 9, 9⟩, 7⟩⟩ :=
  handle_arp_request_reply_fields
    ⟨⟨1, 2, 3, 4, 5, 6⟩, ⟨0, []⟩, [5], 1500, ⟨[]⟩, []⟩ 7 ⟨9, 9, 9, 9, 9, 9⟩ 5 (by decide)

/-- C4 counterexample: an interface with the single local network 1/32 (so a
first local IP, 1, exists) asked for `ipv4_tx` towards destination 7, which
no local network contains, fails with `IllegalArgument` — it does not fall
back to using the first local IP as source as the claim states. -/
theorem ipv4_tx_no_fallback_source :
    StackInterface.ipv4_tx
        ⟨⟨1, 2, 3, 4, 5, 6⟩, ⟨0, []⟩, [1], 1500, ⟨[]⟩, [(1, ⟨⟨1, 32⟩, []⟩)]⟩
        (fun _ => broadcastMac) 7 none
      = .error .IllegalArgument
    ∧ ([(1, (⟨⟨1, 32⟩, []⟩ : Ipv4Data))].map Prod.fst) = [1] := by
  constructor
  · rfl
  · rfl

/-- C4 (amended): `StackInterface::ipv4_tx(dst, gw)` chooses the source IP
as `closest_local_ip` of the next hop (`gw` if present, else `dst`): the
first local IP, in map order, whose network contains the next hop; when no
local network contains the next hop, the call fails with `IllegalArgument`
instead of falling back to the first local IP. -/
theorem ipv4_tx_source_selection (s : StackInterface) (resolved : Ipv4Addr → MacAddr)
    (dst : Ipv4Addr) (gw : Option Ipv4Addr) :
    (s.closest_local_ip (gw.getD dst)
        = (s.ipv4_datas.find? (fun p => p.2.net.contains (gw.getD dst))).map (·.1))
    ∧ (∀ src, s.closest_local_ip (gw.getD dst) = some src →
        ∃ r, s.ipv4_tx resolved dst gw = .ok r ∧ r.src = src)
    ∧ (s.closest_local_ip (gw.getD dst) = none →
        s.ipv4_tx resolved dst gw = .error .IllegalArgument) := by
  refine ⟨rfl, ?_, ?_⟩
  · intro src h
    simp only [StackInterface.ipv4_tx, h]
    exact ⟨_, rfl, rfl⟩
  · intro h
    simp only [StackInterface.ipv4_tx, h]

/-- Witness for C4 (amended): a local network 0/0 containing everything
makes IP 5 the chosen source; an interface with no local networks fails with
`IllegalArgument`. -/
theorem ipv4_tx_source_selection_witness :
    (∃ r, StackInterface.ipv4_tx
        ⟨⟨1, 2, 3, 4, 5, 6⟩, ⟨0, []⟩, [5], 1500, ⟨[]⟩, [(5, ⟨⟨0, 0⟩, []⟩)]⟩
        (fun _ => broadcastMac) 7 none = .ok r ∧ r.src = 5)
    ∧ StackInterface.ipv4_tx ⟨⟨1, 2, 3, 4, 5, 6⟩, ⟨0, []⟩, [], 1500, ⟨[]⟩, []⟩
        (fun _ => broadcastMac) 7 none = .error .IllegalArgument :=
  ⟨(ipv4_tx_source_selection
      ⟨⟨1, 2, 3, 4, 5, 6⟩, ⟨0, []⟩, [5], 1500, ⟨[]⟩, [(5, ⟨⟨0, 0⟩, []⟩)]⟩
      (fun _ => broadcastMac) 7 none).2.1 5 rfl,
   (ipv4_tx_source_selection ⟨⟨1, 2, 3, 4, 5, 6⟩, ⟨0, []⟩, [], 1500, ⟨[]⟩, []⟩
      (fun _ => broadcastMac) 7 none).2.2 rfl⟩

/-- C6: after any sequence of `add_ipv4` calls on a fresh interface —
successful ones and ones failing on a duplicate IP alike — the list of keys
of the `Ipv4Data` map equals the stored local-IP set, and that set has no
duplicates (each assigned IP appears exactly once in each). -/
theorem addresses_eq_ipv4_data_keys (mac : MacAddr) (nets : List Ipv4Network) :
    ((StackInterface.new mac).applyAdds nets).ipv4_datas.map Prod.fst
        = ((StackInterface.new mac).applyAdds nets).ipv4_addresses
    ∧ ((StackInterface.new mac).applyAdds nets).ipv4_addresses.Nodup := by
  suffices h : ∀ s : StackInterface,
      s.ipv4_datas.map Prod.fst = s.ipv4_addresses → s.ipv4_addresses.Nodup →
      (s.applyAdds nets).ipv4_datas.map Prod.fst = (s.applyAdds nets).ipv4_addresses
        ∧ (s.applyAdds nets).ipv4_addresses.Nodup by
    exact h _ rfl List.nodup_nil
  induction nets with
  | nil => exact fun s h1 h2 => ⟨h1, h2⟩
  | cons n ns ih =>
    intro s h1 h2
    have hstep := s.addStep_inv n h1 h2
    exact ih (s.addStep n) hstep.1 hstep.2

/-- `StackInterface::ipv4_tx` can fail only with `IllegalArgument`, never
with `NoRouteToHost`. -/
theorem StackInterface.ipv4_tx_ne_noRoute (s : StackInterface)
    (resolved : Ipv4Addr → MacAddr) (dst : Ipv4Addr) (gw : Option Ipv4Addr) :
    s.ipv4_tx resolved dst gw ≠ .error .NoRouteToHost := by
  unfold StackInterface.ipv4_tx
  cases h : s.closest_local_ip (gw.getD dst) <;> simp [h]

/-- C10: `NetworkStack::ipv4_tx(dst)` returns `NoRouteToHost` exactly when
the routing table has no route for `dst`; when a route exists but its
interface is not in the stack's interface map, it returns `IllegalArgument`. -/
theorem networkStack_ipv4_tx_route_errors (ns : NetworkStack)
    (resolved : Ipv4Addr → MacAddr) (dst : Ipv4Addr) :
    (ns.ipv4_tx resolved dst = .error .NoRouteToHost
        ↔ routeLookup ns.routing_table dst = none)
    ∧ (∀ gw iface, routeLookup ns.routing_table dst = some (gw, iface) →
        ns.interfaces.find? (fun p => p.1 == iface) = none →
        ns.ipv4_tx resolved dst = .error .IllegalArgument) := by
  constructor
  · unfold NetworkStack.ipv4_tx
    cases hr : routeLookup ns.routing_table dst with
    | none => simp
    | some gi =>
      obtain ⟨gw, iface⟩ := gi
      cases hf : ns.interfaces.find? (fun p => p.1 == iface) with
      | none => simp [hf]
      | some p => simp [hf, p.2.ipv4_tx_ne_noRoute resolved dst gw]
  · intro gw iface hr hf
    unfold NetworkStack.ipv4_tx
    simp only [hr, hf]

/-- Witness for C10: a stack whose routing table sends everything to an
unregistered interface yields `IllegalArgument`; a stack with an empty
routing table yields `NoRouteToHost`. -/
theorem networkStack_ipv4_tx_route_errors_witness :
    NetworkStack.ipv4_tx
        ⟨[], [⟨⟨0, 0⟩, none, { name := "eth0", mac := ⟨1, 2, 3, 4, 5, 6⟩ }⟩]⟩
        (fun _ => broadcastMac) 7
      = .error .IllegalArgument
    ∧ NetworkStack.ipv4_tx ⟨[], []⟩ (fun _ => broadcastMac) 7
        = .error .NoRouteToHost :=
  ⟨(networkStack_ipv4_tx_route_errors
      ⟨[], [⟨⟨0, 0⟩, none, { name := "eth0", mac := ⟨1, 2, 3, 4, 5, 6⟩ }⟩]⟩
      (fun _ => broadcastMac) 7).2 none
      { name := "eth0", mac := ⟨1, 2, 3, 4, 5, 6⟩ } rfl rfl,
   (networkStack_ipv4_tx_route_errors ⟨[], []⟩ (fun _ => broadcastMac) 7).1.mpr rfl⟩

/-- A successful `interface` lookup means the key is found in the map. -/
theorem interfaceGet_isSome {ns : NetworkStack} {iface : Interface} {si : StackInterface}
    (h : ns.interfaceGet iface = .ok si) :
    (ns.interfaces.find? (fun p => p.1 == iface)).isSome = true := by
  unfold NetworkStack.interfaceGet at h
  cases hf : ns.interfaces.find? (fun p => p.1 == iface) with
  | none => rw [hf] at h; exact absurd h (by simp)
  | some p => rfl

/-- Overwriting the value under a present key makes lookup return it. -/
theorem find?_map_setkey (l : List (Interface × StackInterface)) (iface : Interface)
    (si' : StackInterface) (h : (l.find? (fun p => p.1 == iface)).isSome = true) :
    (l.map (fun p => if p.1 == iface then (iface, si') else p)).find?
        (fun p => p.1 == iface) = some (iface, si') := by
  induction l with
  | nil => simp at h
  | cons x xs ih =>
    simp only [List.map_cons]
    by_cases hx : x.1 = iface
    · rw [if_pos (by simp [hx])]
      exact List.find?_cons_of_pos _ (by simp)
    · rw [if_neg (by simp [hx])]
      rw [List.find?_cons_of_neg _ (by simp [hx])]
      apply ih
      rwa [List.find?_cons_of_neg _ (by simp [hx])] at h

/-- C7: on a registered interface whose `Ipv4Data` map does not yet hold the
network's IP, `NetworkStack::add_ipv4` succeeds and appends the route
(network, no gateway, interface) to the routing table; a second `add_ipv4`
with any network carrying the same local IP on the same interface fails with
`IllegalArgument`. -/
theorem networkStack_add_ipv4_route_and_duplicate (ns : NetworkStack) (iface : Interface)
    (si : StackInterface) (ip_net : Ipv4Network)
    (h1 : ns.interfaceGet iface = .ok si)
    (h2 : si.ipv4_datas.find? (fun p => p.1 == ip_net.ip) = none) :
    ∃ ns', ns.add_ipv4 iface ip_net = .ok ns'
      ∧ ns'.routing_table = ns.routing_table ++ [⟨ip_net, none, iface⟩]
      ∧ ∀ net2 : Ipv4Network, net2.ip = ip_net.ip →
          ns'.add_ipv4 iface net2 = .error .IllegalArgument := by
  set si' : StackInterface := { si with
    ipv4_datas := si.ipv4_datas ++ [(ip_net.ip, ⟨ip_net, []⟩)],
    ipv4_addresses := if ip_net.ip ∈ si.ipv4_addresses then si.ipv4_addresses
      else si.ipv4_addresses ++ [ip_net.ip] } with hsi'
  have hadd : si.add_ipv4 ip_net = .ok si' := by
    rw [hsi']
    unfold StackInterface.add_ipv4
    simp [h2]
  refine ⟨{ ns.setInterface iface si' with
      routing_table := ns.routing_table ++ [⟨ip_net, none, iface⟩] }, ?_, rfl, ?_⟩
  · unfold NetworkStack.add_ipv4
    rw [h1]
    simp only [hadd]
  · intro net2 hkey
    have hget2 : ({ ns.setInterface iface si' with
        routing_table := ns.routing_table ++ [⟨ip_net, none, iface⟩] } :
          NetworkStack).interfaceGet iface = .ok si' := by
      unfold NetworkStack.interfaceGet NetworkStack.setInterface
      rw [find?_map_setkey ns.interfaces iface si' (interfaceGet_isSome h1)]
    have hdup : si'.ipv4_datas.find? (fun p => p.1 == net2.ip)
        = some (ip_net.ip, ⟨ip_net, []⟩) := by
      rw [hsi']
      simp only [hkey, List.find?_append, h2, Option.none_or]
      exact List.find?_cons_of_pos _ (by simp)
    unfold NetworkStack.add_ipv4
    rw [hget2]
    unfold StackInterface.add_ipv4
    simp only [hdup, Option.isSome_some, if_true]

/-- Witness for C7: a stack with one registered interface and no local IPs;
adding 5/32 succeeds and installs the route, adding 5/32 again fails. -/
theorem networkStack_add_ipv4_route_and_duplicate_witness :
    ∃ ns', NetworkStack.add_ipv4
        ⟨[({ name := "eth0", mac := ⟨1, 2, 3, 4, 5, 6⟩ },
            StackInterface.new ⟨1, 2, 3, 4, 5, 6⟩)], []⟩
        { name := "eth0", mac := ⟨1, 2, 3, 4, 5, 6⟩ } ⟨5, 32⟩ = .ok ns'
      ∧ ns'.routing_table
          = [] ++ [⟨⟨5, 32⟩, none, { name := "eth0", mac := ⟨1, 2, 3, 4, 5, 6⟩ }⟩]
      ∧ ∀ net2 : Ipv4Network, net2.ip = (5 : Nat) →
          ns'.add_ipv4 { name := "eth0", mac := ⟨1, 2, 3, 4, 5, 6⟩ } net2
            = .error .IllegalArgument :=
  networkStack_add_ipv4_route_and_duplicate
    ⟨[({ name := "eth0", mac := ⟨1, 2, 3, 4, 5, 6⟩ },
        StackInterface.new ⟨1, 2, 3, 4, 5, 6⟩)], []⟩
    { name := "eth0", mac := ⟨1, 2, 3, 4, 5, 6⟩ }
    (StackInterface.new ⟨1, 2, 3, 4, 5, 6⟩) ⟨5, 32⟩ rfl rfl

/-- Updating the value under the found key of an association list makes the
lookup return the updated value. -/
theorem find?_upd_some (ip : Nat) (g : Ipv4Data → Ipv4Data)
    (l : List (Ipv4Addr × Ipv4Data)) (q : Ipv4Addr × Ipv4Data)
    (h : l.find? (fun r => r.1 == ip) = some q) :
    (l.map (fun r => if r.1 == ip then (r.1, g r.2) else r)).find?
        (fun r => r.1 == ip) = some (q.1, g q.2) := by
  induction l with
  | nil => simp at h
  | cons x xs ih =>
    simp only [List.map_cons]
    by_cases hx : x.1 = ip
    · rw [List.find?_cons_of_pos _ (by simp [hx])] at h
      injection h with h
      subst h
      rw [if_pos (by simp [hx])]
      exact List.find?_cons_of_pos _ (by simp [hx])
    · rw [List.find?_cons_of_neg _ (by simp [hx])] at h
      rw [if_neg (by simp [hx])]
      rw [List.find?_cons_of_neg _ (by simp [hx])]
      exact ih h

/-- A key-preserving value update leaves a failing lookup failing. -/
theorem find?_upd_none (ip : Nat) (g : Ipv4Data → Ipv4Data)
    (l : List (Ipv4Addr × Ipv4Data))
    (h : l.find? (fun r => r.1 == ip) = none) :
    (l.map (fun r => if r.1 == ip then (r.1, g r.2) else r)).find?
        (fun r => r.1 == ip) = none := by
  induction l with
  | nil => rfl
  | cons x xs ih =>
    simp only [List.map_cons]
    by_cases hx : x.1 = ip
    · rw [List.find?_cons_of_pos _ (by simp [hx])] at h
      cases h
    · rw [List.find?_cons_of_neg _ (by simp [hx])] at h
      rw [if_neg (by simp [hx])]
      rw [List.find?_cons_of_neg _ (by simp [hx])]
      exact ih h

/-- Applying the per-interface UDP-listener update to the interface found by
the owning-interface search updates exactly that interface's data. -/
theorem findSome?_owning_upd (iface : Interface) (ip : Ipv4Addr)
    (g : Ipv4Data → Ipv4Data) (l : List (Interface × StackInterface)) (data : Ipv4Data)
    (h : l.findSome?
        (fun p => (p.2.ipv4_datas.find? (fun q => q.1 == ip)).map (fun q => (p.1, q.2)))
      = some (iface, data)) :
    (l.map (fun p => if p.1 == iface then
        (p.1, { p.2 with ipv4_datas := p.2.ipv4_datas.map (fun r =>
          if r.1 == ip then (r.1, g r.2) else r) })
      else p)).findSome?
        (fun p => (p.2.ipv4_datas.find? (fun q => q.1 == ip)).map (fun q => (p.1, q.2)))
      = some (iface, g data) := by
  induction l with
  | nil => simp at h
  | cons x xs ih =>
    simp only [List.map_cons, List.findSome?_cons]
    cases hfx : x.2.ipv4_datas.find? (fun q => q.1 == ip) with
    | some q =>
      simp only [List.findSome?_cons, hfx, Option.map_some'] at h
      simp only [Option.some.injEq, Prod.mk.injEq] at h
      obtain ⟨h1, h2⟩ := h
      rw [if_pos (by simp [h1])]
      simp only [find?_upd_some ip g _ q hfx, Option.map_some']
      rw [h1, h2]
    | none =>
      simp only [List.findSome?_cons, hfx, Option.map_none'] at h
      by_cases hx : x.1 = iface
      · rw [if_pos (by simp [hx])]
        simp only [find?_upd_none ip g _ hfx, Option.map_none']
        exact ih h
      · rw [if_neg (by simp [hx])]
        simp only [hfx, Option.map_none']
        exact ih h

/-- `insertUdpListener` appends the new listener to the data of the first
interface owning the IP, as seen through `findOwning`. -/
theorem findOwning_insertUdp (ns : NetworkStack) (iface : Interface) (ip : Ipv4Addr)
    (port listener : Nat) (data : Ipv4Data)
    (h : ns.findOwning ip = some (iface, data)) :
    (ns.insertUdpListener iface ip port listener).findOwning ip
      = some (iface,
          { data with udp_listeners := data.udp_listeners ++ [(port, listener)] }) := by
  unfold NetworkStack.findOwning at h
  unfold NetworkStack.findOwning NetworkStack.insertUdpListener
  exact findSome?_owning_upd iface ip
    (fun d => { d with udp_listeners := d.udp_listeners ++ [(port, listener)] })
    ns.interfaces data h

/-- C5: `udp_listen_ipv4` on a stack where `iface` is the first interface
owning `ip ≠ 0`: a 0.0.0.0 bind fails with `AddrNotAvailable`; a zero port
is replaced by a random free port in `[32768, 61000)` not already bound on
that local IP and the listener is registered; a nonzero already-bound port
fails with `AddrInUse` and registers nothing; every successful call leaves
the listener registered under the returned port. -/
theorem udp_listen_ipv4_spec (ns : NetworkStack) (draws : List Nat) (ip : Ipv4Addr)
    (iface : Interface) (data : Ipv4Data) (listener : Nat)
    (hip : ip ≠ 0)
    (hown : ns.findOwning ip = some (iface, data)) :
    (∀ port l, ns.udp_listen_ipv4 draws 0 port l = some (ns, .error .AddrNotAvailable))
    ∧ (∀ p, (∀ d ∈ draws, 32768 ≤ d ∧ d < 61000) →
        get_random_port data.udp_listeners draws = some p →
        (32768 ≤ p ∧ p < 61000)
        ∧ data.udp_listeners.find? (fun q => q.1 == p) = none
        ∧ ns.udp_listen_ipv4 draws ip 0 listener
            = some (ns.insertUdpListener iface ip p listener, .ok (ip, p)))
    ∧ (∀ port, port ≠ 0 →
        (data.udp_listeners.find? (fun q => q.1 == port)).isSome = true →
        ns.udp_listen_ipv4 draws ip port listener = some (ns, .error .AddrInUse))
    ∧ (∀ port p ns',
        ns.udp_listen_ipv4 draws ip port listener = some (ns', .ok (ip, p)) →
        ∃ data', ns'.findOwning ip = some (iface, data')
          ∧ (p, listener) ∈ data'.udp_listeners) := by
  refine ⟨?_, ?_, ?_, ?_⟩
  · intro port l
    unfold NetworkStack.udp_listen_ipv4
    rw [if_pos rfl]
  · intro p hdr hrand
    have hmem := List.mem_of_find?_eq_some hrand
    have hfree : data.udp_listeners.find? (fun q => q.1 == p) = none := by
      have hp := List.find?_some hrand
      simpa [Option.isNone_iff_eq_none] using hp
    refine ⟨hdr p hmem, hfree, ?_⟩
    unfold NetworkStack.udp_listen_ipv4
    rw [if_neg hip]
    simp only [hown, if_pos rfl, hrand, hfree, Option.isNone_none, if_true]
  · intro port hport hocc
    obtain ⟨v, hv⟩ := Option.isSome_iff_exists.mp hocc
    unfold NetworkStack.udp_listen_ipv4
    rw [if_neg hip]
    simp only [hown, if_neg hport, hv, Option.isNone_some, Bool.false_eq_true, if_false]
  · intro port p ns' hres
    unfold NetworkStack.udp_listen_ipv4 at hres
    rw [if_neg hip] at hres
    simp only [hown] at hres
    cases hport : (if port = 0 then get_random_port data.udp_listeners draws
        else some port) with
    | none =>
      rw [hport] at hres
      exact absurd hres (by simp)
    | some lp =>
      rw [hport] at hres
      have hres2 : (if (data.udp_listeners.find? (fun q => q.1 == lp)).isNone = true
          then some (ns.insertUdpListener iface ip lp listener,
            (Except.ok (ip, lp) : Except IoErrorKind (Ipv4Addr × Nat)))
          else some (ns, Except.error IoErrorKind.AddrInUse))
          = some (ns', .ok (ip, p)) := hres
      by_cases hfree : (data.udp_listeners.find? (fun q => q.1 == lp)).isNone = true
      · rw [if_pos hfree] at hres2
        simp only [Option.some.injEq, Prod.mk.injEq, Except.ok.injEq] at hres2
        obtain ⟨hns, -, hlp⟩ := hres2
        subst hns
        subst hlp
        exact ⟨_, findOwning_insertUdp ns iface ip lp listener data hown, by simp⟩
      · rw [if_neg hfree] at hres2
        exact absurd hres2 (by simp)

/-- Witness for C5 on concrete stacks: binding 0.0.0.0 fails with
`AddrNotAvailable`; a zero-port bind on IP 5 draws port 40000 (free, in
range) and registers listener 2 under it; binding busy port 7 fails with
`AddrInUse` leaving the stack unchanged; the successful call left the
listener registered. -/
theorem udp_listen_ipv4_spec_witness :
    sampleStackFree.udp_listen_ipv4 [40000] 0 3 9
        = some (sampleStackFree, .error .AddrNotAvailable)
    ∧ ((32768 ≤ 40000 ∧ 40000 < 61000)
        ∧ (⟨⟨5, 32⟩, []⟩ : Ipv4Data).udp_listeners.find? (fun q => q.1 == 40000) = none
        ∧ sampleStackFree.udp_listen_ipv4 [40000] 5 0 2
            = some (sampleStackFree.insertUdpListener sampleIface 5 40000 2, .ok (5, 40000)))
    ∧ sampleStackBusy.udp_listen_ipv4 [40000] 5 7 2
        = some (sampleStackBusy, .error .AddrInUse)
    ∧ (∃ data', (sampleStackFree.insertUdpListener sampleIface 5 40000 2).findOwning 5
          = some (sampleIface, data')
        ∧ ((40000, 2) : Nat × Nat) ∈ data'.udp_listeners) := by
  have h := udp_listen_ipv4_spec sampleStackFree [40000] 5 sampleIface ⟨⟨5, 32⟩, []⟩ 2
    (by decide) rfl
  have ha := h.2.1 40000 (by decide) rfl
  refine ⟨h.1 3 9, ha, ?_, ?_⟩
  · exact (udp_listen_ipv4_spec sampleStackBusy [40000] 5 sampleIface ⟨⟨5, 32⟩, [(7, 1)]⟩ 2
      (by decide) rfl).2.2.1 7 (by decide) rfl
  · exact h.2.2.2 0 40000 _ ha.2.2

end Rips
